import Mathlib

/-!
Shallow embedding of the socket_proxy protocol core.

Byte strings from the Rust source are modelled as `List Nat` (each element a
byte value).  Rust strings (`String`, `Box<str>`) are modelled by their UTF-8
byte lists.  Fallible Rust functions returning `Result`/`io::Result` become
`Except`.  A Rust panic (out-of-bounds slice indexing) is modelled by the
distinguished error value `PErr.panic`, so that panic-freedom is a provable
statement rather than an assumption.
-/

set_option maxRecDepth 10000

/-- Outcome of a fallible TLS-parser operation: either a named parse error
(`&'static str` in the source) or a modelled Rust panic. -/
inductive PErr where
  | msg (s : String)
  | panic
  deriving DecidableEq

/-- Big-endian accumulation of a length field, mirroring the loop
`actual_len = actual_len << 8 | bit` in `slice_by_at_range`
(src/tls/mod.rs lines 12-15). -/
def beLen (bits : List Nat) : Nat :=
  bits.foldl (fun acc b => (acc <<< 8) ||| b) 0

/-- Embedding of `slice_by_at_range` (src/tls/mod.rs lines 8-18): read a
big-endian length from `data[s..e]`, then return the `actual_len` bytes that
follow position `e`.  Both accesses use Rust `slice::get`, which is
bounds-checked, so failures are named errors, never panics. -/
def slice_by_at_range (data : List Nat) (s e : Nat) : Except PErr (List Nat) :=
  if s ≤ e ∧ e ≤ data.length then
    let actualLen := beLen ((data.drop s).take (e - s))
    if e + actualLen ≤ data.length then
      .ok ((data.drop e).take actualLen)
    else
      .error (.msg "error when get index")
  else
    .error (.msg "no enough data length to decode")

/-- Embedding of `truncate_before` (src/tls/mod.rs lines 21-24): drop
everything up to and including the length-prefixed field at `s..e`.  The
source indexes `&data[len_range.end + len..]` without `get`, which would
panic if the index exceeded the length; that case is modelled as
`PErr.panic` (and proved unreachable below). -/
def truncate_before (data : List Nat) (s e : Nat) : Except PErr (List Nat) :=
  match slice_by_at_range data s e with
  | .error err => .error err
  | .ok r =>
    if e + r.length ≤ data.length then
      .ok (data.drop (e + r.length))
    else
      .error .panic

/-- Embedding of `TlsRecord` (src/tls/mod.rs lines 26-31). -/
structure TlsRecord where
  content_type : Nat
  major_version : Nat
  minor_version : Nat
  fragment : List Nat
  deriving DecidableEq

/-- Embedding of `TlsClientHello` (src/tls/mod.rs lines 34-36); the optional
server name is kept as its UTF-8 byte list. -/
structure TlsClientHello where
  server_name : Option (List Nat)
  deriving DecidableEq

/-- Embedding of `parse_tls_record` (src/tls/mod.rs lines 38-46).  The header
bytes `data[0]`, `data[1]`, `data[2]` are raw indexing in the source; the
panic case is modelled and proved unreachable (the preceding
`slice_by_at_range data 3 5` guarantees at least 5 bytes). -/
def parse_tls_record (data : List Nat) : Except PErr TlsRecord :=
  match slice_by_at_range data 3 5 with
  | .error e => .error e
  | .ok fragment =>
    match data with
    | t :: ma :: mi :: _ => .ok ⟨t, ma, mi, fragment⟩
    | _ => .error .panic

/-- The `EXT_SERVER_NAME` constant (src/tls/mod.rs line 5). -/
def EXT_SERVER_NAME : List Nat := [0, 0]

/-- One continuation byte of a UTF-8 sequence (`0x80..=0xBF`). -/
def utf8Cont (b : Nat) : Bool := 0x80 ≤ b && b ≤ 0xBF

/-- Validity of a byte list as UTF-8, mirroring the acceptance condition of
Rust `str::from_utf8` / `String::from_utf8` (well-formed UTF-8: no overlong
encodings, no surrogates, maximum U+10FFFF). -/
def utf8Valid : List Nat → Bool
  | [] => true
  | b :: rest =>
    if b ≤ 0x7F then utf8Valid rest
    else if 0xC2 ≤ b && b ≤ 0xDF then
      match rest with
      | c1 :: r => utf8Cont c1 && utf8Valid r
      | [] => false
    else if b == 0xE0 then
      match rest with
      | c1 :: c2 :: r => (0xA0 ≤ c1 && c1 ≤ 0xBF) && utf8Cont c2 && utf8Valid r
      | _ => false
    else if (0xE1 ≤ b && b ≤ 0xEC) || b == 0xEE || b == 0xEF then
      match rest with
      | c1 :: c2 :: r => utf8Cont c1 && utf8Cont c2 && utf8Valid r
      | _ => false
    else if b == 0xED then
      match rest with
      | c1 :: c2 :: r => (0x80 ≤ c1 && c1 ≤ 0x9F) && utf8Cont c2 && utf8Valid r
      | _ => false
    else if b == 0xF0 then
      match rest with
      | c1 :: c2 :: c3 :: r =>
        (0x90 ≤ c1 && c1 ≤ 0xBF) && utf8Cont c2 && utf8Cont c3 && utf8Valid r
      | _ => false
    else if 0xF1 ≤ b && b ≤ 0xF3 then
      match rest with
      | c1 :: c2 :: c3 :: r => utf8Cont c1 && utf8Cont c2 && utf8Cont c3 && utf8Valid r
      | _ => false
    else if b == 0xF4 then
      match rest with
      | c1 :: c2 :: c3 :: r =>
        (0x80 ≤ c1 && c1 ≤ 0x8F) && utf8Cont c2 && utf8Cont c3 && utf8Valid r
      | _ => false
    else false

/-- Embedding of the extension-walking `while` loop of `parse_client_hello`
(src/tls/mod.rs lines 85-102).  The loop body reads the current extension
header from `exts`, then (faithfully to the source) advances `exts` with
`truncate_before(&ext_data, 2..4)` - a cursor taken from inside the
extension body, not from the remainder of the extension list.  The raw
indexing `ext_data[3]` is modelled with `PErr.panic` on out-of-range (and
proved unreachable).  The `fuel` argument makes the recursion structural;
running out of fuel is also mapped to `PErr.panic` and proved unreachable
for `fuel > exts.length`. -/
def extLoop : Nat → List Nat → Option (List Nat) → Except PErr (Option (List Nat))
  | 0, _, _ => .error .panic
  | fuel + 1, exts, serverName =>
    if 4 < exts.length then
      match slice_by_at_range exts 2 4 with
      | .error e => .error e
      | .ok ext_data =>
        match truncate_before ext_data 2 4 with
        | .error e => .error e
        | .ok exts2 =>
          if exts.take 2 = EXT_SERVER_NAME then
            match ext_data.get? 3 with
            | none => .error .panic
            | some b =>
              if b = 0 then
                match slice_by_at_range ext_data 3 5 with
                | .error e => .error e
                | .ok rawName =>
                  if utf8Valid rawName then
                    extLoop fuel exts2 (some rawName)
                  else
                    .error (.msg "error when parse from raw data")
              else
                extLoop fuel exts2 serverName
          else
            extLoop fuel exts2 serverName
    else
      .ok serverName

/-- Embedding of `parse_client_hello` (src/tls/mod.rs lines 48-105): record
header checks, ClientHello body walk (random, session id, cipher suites,
compression methods), then the extension loop. -/
def parse_client_hello (data : List Nat) : Except PErr TlsClientHello :=
  match parse_tls_record data with
  | .error e => .error e
  | .ok r =>
    if r.major_version ≠ 3 then .error (.msg "unknown tls version")
    else if r.content_type ≠ 22 then .error (.msg "not a handshake")
    else if r.fragment.get? 0 ≠ some 1 then
      .error (.msg "handshake type isn\x27t a client hello")
    else
      match slice_by_at_range r.fragment 1 4 with
      | .error e => .error e
      | .ok body =>
        if body.get? 0 ≠ some 3 then .error (.msg "unsupported TLS version")
        else
          match truncate_before body 34 35 with
          | .error e => .error e
          | .ok rem1 =>
            match truncate_before rem1 0 2 with
            | .error e => .error e
            | .ok rem2 =>
              match truncate_before rem2 0 1 with
              | .error e => .error e
              | .ok rem3 =>
                match slice_by_at_range rem3 0 2 with
                | .error e => .error e
                | .ok exts =>
                  match extLoop (exts.length + 1) exts none with
                  | .error e => .error e
                  | .ok sn => .ok ⟨sn⟩

/-!
## SOCKS5 wire codec and client (src/protocols/socks5.rs, src/client.rs)
-/

/-- Embedding of `io::Error` values produced by the client and codec paths:
`read_exact`/`read_u8` exhaustion, the `tokio::time::timeout` elapse
(converted by `?` into an `io::Error` of kind `TimedOut`), the
`ErrorKind::InvalidInput` errors of `error_invalid_input`, and the
`ErrorKind::Other` errors of the `err!` macro in socks5.rs. -/
inductive IoErr where
  | unexpectedEof
  | timedOut
  | invalidInput (msg : String)
  | other (msg : String)
  deriving DecidableEq

/-- Embedding of `Address` (src/client.rs lines 20-24); IP addresses are kept
as their octet lists (4 octets for v4, 16 for v6), domains as UTF-8 byte
lists. -/
inductive Address where
  | Ip4 (octets : List Nat)
  | Ip6 (octets : List Nat)
  | Domain (name : List Nat)
  deriving DecidableEq

/-- Embedding of `Destination` (src/client.rs lines 44-47); `port` is a
16-bit value modelled as `Nat`. -/
structure Destination where
  host : Address
  port : Nat
  deriving DecidableEq

/-- Embedding of `build_request` (src/protocols/socks5.rs lines 72-96).
Note that the source pushes an ATYP byte for the IPv6 (0x04) and domain
(0x03) cases but not for the IPv4 case, and length-prefixes domains with
`name.len() as u8`; the port is emitted big-endian via two `as u8` casts. -/
def build_request (dest : Destination) : List Nat :=
  [5, 1, 0] ++
  (match dest.host with
    | .Ip4 octets => octets
    | .Ip6 octets => 4 :: octets
    | .Domain name => 3 :: name.length % 256 :: name) ++
  [(dest.port >>> 8) % 256, dest.port % 256]

/-- Embedding of `tokio::io::AsyncReadExt::read_exact` over a byte-list
input stream: take exactly `n` bytes or fail with `UnexpectedEof`. -/
def readExact : Nat → List Nat → Except IoErr (List Nat × List Nat)
  | 0, l => .ok ([], l)
  | _ + 1, [] => .error .unexpectedEof
  | n + 1, b :: l =>
    match readExact n l with
    | .error e => .error e
    | .ok (bs, rest) => .ok (b :: bs, rest)

/-- Embedding of `read_u16` (big-endian 16-bit read). -/
def readU16 : List Nat → Except IoErr (Nat × List Nat)
  | b1 :: b2 :: r => .ok ((b1 <<< 8) ||| b2, r)
  | _ => .error .unexpectedEof

/-- The fixed SOCKS5 success reply sent by the local server role
(src/client.rs line 166). -/
def successFrame : List Nat := [5, 0, 0, 1, 0, 0, 0, 0, 0, 0]

/-- Embedding of the CONNECT-request decoding portion of
`Client::from_socket` (src/client.rs lines 134-165): read the 4-byte
request header, require `[0x05, 0x01]`, dispatch on the address type byte
(IPv4 = 1, domain = 3, IPv6 = 4), validate domain bytes as UTF-8, then read
the big-endian port.  Returns the decoded destination and the unread rest
of the input. -/
def decodeConnectRequest (input : List Nat) : Except IoErr (Destination × List Nat) :=
  match readExact 4 input with
  | .error e => .error e
  | .ok (req, r1) =>
    if req.take 2 ≠ [5, 1] then .error (.invalidInput "Socksv5, CONNECT is required")
    else
      match req.getD 3 0 with
      | 1 =>
        match readExact 4 r1 with
        | .error e => .error e
        | .ok (ip, r2) =>
          match readU16 r2 with
          | .error e => .error e
          | .ok (port, r3) => .ok (⟨.Ip4 ip, port⟩, r3)
      | 3 =>
        match r1 with
        | [] => .error .unexpectedEof
        | dlen :: r2 =>
          match readExact dlen r2 with
          | .error e => .error e
          | .ok (name, r3) =>
            if utf8Valid name then
              match readU16 r3 with
              | .error e => .error e
              | .ok (port, r4) => .ok (⟨.Domain name, port⟩, r4)
            else .error (.invalidInput "Socksv5, invalid domain name")
      | 4 =>
        match readExact 16 r1 with
        | .error e => .error e
        | .ok (ip, r2) =>
          match readU16 r2 with
          | .error e => .error e
          | .ok (port, r3) => .ok (⟨.Ip6 ip, port⟩, r3)
      | _ => .error (.invalidInput "Socksv5, unknown adress type")

/-- Embedding of the SOCKS5 server-role branch of `Client::from_socket`
(src/client.rs lines 121-167): version byte, method list with mandatory
no-auth, method-selection reply `[5, 0]`, CONNECT request decoding, then the
fixed success frame.  The result carries the resolved destination, the
bytes written back to the client (on the success path), and the unread rest
of the input. -/
def from_socket_socks5 (input : List Nat) :
    Except IoErr (Destination × List Nat × List Nat) :=
  match input with
  | [] => .error .unexpectedEof
  | ver :: r1 =>
    if ver ≠ 5 then .error (.invalidInput "Neither a NATed or SOCKSv5 connection")
    else
      match r1 with
      | [] => .error .unexpectedEof
      | n :: r2 =>
        match readExact n r2 with
        | .error e => .error e
        | .ok (methods, r3) =>
          if methods.contains 0 = false then
            .error (.invalidInput "Socksv5, Only no auth supported")
          else
            match decodeConnectRequest r3 with
            | .error e => .error e
            | .ok (dest, r4) => .ok (dest, [5, 0] ++ successFrame, r4)

/-- Embedding of `do_handshake` (src/protocols/socks5.rs lines 30-70) as a
function of the upstream proxy replies: the 2-byte method-selection reply
must be `[0x05, 0x00]` and the first two bytes of the 10-byte CONNECT reply
must be `[0x05, 0x00]`; on success the result is the byte sequence written
to the upstream socket - the method offer, the encoded request, and then
the caller-supplied early data (if any) flushed after the handshake. -/
def do_handshake (dest : Destination) (data : Option (List Nat))
    (reply1 reply2 : List Nat) : Except IoErr (List Nat) :=
  if reply1 ≠ [5, 0] then .error (.other "")
  else if reply2.take 2 ≠ [5, 0] then .error (.other "unexpected reply from server")
  else
    .ok ([5, 1, 0] ++ build_request dest ++
      (match data with | some d => d | none => []))

/-- The fields of `Client` (src/client.rs lines 77-84) relevant to
destination negotiation; the socket, source address and config handle are
opaque resources and are omitted. -/
structure Client where
  dest : Destination
  from_port : Nat
  pending_data : Option (List Nat)
  deriving DecidableEq

/-- The three possible outcomes of the bounded 500 ms peek
`timeout(wait, left.read(&mut buf)).await` in `Client::retrieve_dest`
(src/client.rs line 197): the deadline elapsed, the read completed with a
socket error, or the read completed with `data` (at most the 2048-byte
buffer; `data = []` would be EOF). -/
inductive PeekOutcome where
  | elapsed
  | readErr (e : IoErr)
  | readOk (data : List Nat)

/-- Embedding of `Client::retrieve_dest` (src/client.rs lines 184-212).
The `?` on the `timeout(..)` result converts an elapsed deadline into an
`io::Error` of kind `TimedOut` that propagates out; a read error is
discarded by the `if let Ok(len)` pattern; on a successful read the buffer
is truncated to the bytes read and then dropped (the TLS handling is an
unfinished `TODO` in the source), and the rebuilt `Client` carries the
locally shadowed `pending_data = None` and the unchanged destination. -/
def retrieve_dest (c : Client) (peek : PeekOutcome) : Except IoErr Client :=
  match peek with
  | .elapsed => .error .timedOut
  | .readErr _ => .ok { c with pending_data := none }
  | .readOk _ => .ok { c with pending_data := none }

/-!
## Bidirectional relay (src/stream.rs)

The relay is embedded as a state machine: the tokio sockets are replaced by
scripts of I/O events (one event per `poll_read`/`poll_write`/`poll_shutdown`
attempt), and `Poll::Pending` suspensions map to results that carry the
updated state.
-/

/-- `SHARED_BUF_SIZE` (src/stream.rs line 28). -/
def SHARED_BUF_SIZE : Nat := 1024 * 64

/-- `PRIVATE_BUF_SIZE` (src/stream.rs line 29). -/
def PRIVATE_BUF_SIZE : Nat := 1024 * 8

/-- `HALF_CLOSE_TIMEOUT` in seconds (src/stream.rs line 30). -/
def HALF_CLOSE_TIMEOUT : Nat := 60

/-- Embedding of `StreamWithBuffer` (src/stream.rs lines 35-44): the
optional private buffer holds its byte contents; `pos`/`cap` are the
write/read cursors into the active buffer. -/
structure StreamWithBuffer where
  buf : Option (List Nat)
  pos : Nat
  cap : Nat
  read_eof : Bool
  done : Bool
  deriving DecidableEq

/-- `StreamWithBuffer::new` (src/stream.rs lines 47-56). -/
def StreamWithBuffer.new : StreamWithBuffer :=
  ⟨none, 0, 0, false, false⟩

/-- `StreamWithBuffer::is_empty` (src/stream.rs lines 57-59). -/
def StreamWithBuffer.is_empty (s : StreamWithBuffer) : Bool :=
  s.pos == s.cap

/-- One `poll_read` attempt on the source socket: suspend, fail, or deliver
a chunk of bytes (`chunk []` is end-of-input, a read of zero bytes). -/
inductive ReadEvent where
  | pending
  | ioError (e : String)
  | chunk (data : List Nat)

/-- One `poll_write` attempt on the peer socket: suspend, fail, or accept up
to `n` bytes of the offered slice. -/
inductive WriteEvent where
  | pending
  | ioError (e : String)
  | accepted (n : Nat)

/-- One `poll_shutdown` attempt on the peer socket. -/
inductive ShutdownEvent where
  | pending
  | ok
  | ioError (e : String)

/-- Result of `poll_read_to_buffer`: `Poll::Pending`, a fatal I/O error, or
`Ready(Ok(n))` with the updated stream state, the updated shared scratch
buffer, and the bytes that were placed in the buffer. -/
inductive RResult where
  | pending
  | fatal (e : String)
  | readOk (s : StreamWithBuffer) (shared : List Nat) (filled : List Nat)

/-- Embedding of `StreamWithBuffer::poll_read_to_buffer`
(src/stream.rs lines 62-88): read into the private buffer if one exists,
otherwise into the thread-local shared scratch buffer.  A zero-byte read
sets `read_eof`; otherwise the source sets `pos = 0` and `cap = 0`
(src/stream.rs lines 83-84) - `cap` is assigned 0, not the number of bytes
just read. -/
def poll_read_to_buffer (s : StreamWithBuffer) (shared : List Nat)
    (ev : ReadEvent) : RResult :=
  match ev with
  | .pending => .pending
  | .ioError e => .fatal e
  | .chunk data =>
    match s.buf with
    | some b =>
      let filled := data.take b.length
      let s1 := { s with buf := some (filled ++ b.drop filled.length) }
      if filled.length == 0 then .readOk { s1 with read_eof := true } shared filled
      else .readOk { s1 with pos := 0, cap := 0 } shared filled
    | none =>
      let filled := data.take SHARED_BUF_SIZE
      let shared1 := filled ++ shared.drop filled.length
      if filled.length == 0 then .readOk { s with read_eof := true } shared1 filled
      else .readOk { s with pos := 0, cap := 0 } shared1 filled

/-- Result of `poll_write_buffer_to`: a suspension (carrying the state, since
the source may allocate the private buffer before yielding), a fatal error,
or `Ready(Ok(n))` with the bytes actually written to the peer. -/
inductive WResult where
  | pending (s : StreamWithBuffer)
  | fatal (e : String)
  | wrote (s : StreamWithBuffer) (chunk : List Nat)

/-- Embedding of `StreamWithBuffer::poll_write_buffer_to`
(src/stream.rs lines 90-126): offer `buffer[pos..cap]` to the peer socket.
A write of zero bytes is the fatal `WriteZero` error; a successful write of
`n` bytes advances `pos`.  On `Poll::Pending` with no private buffer, the
unwritten remainder of the shared buffer is copied into a freshly allocated
private buffer of size `max PRIVATE_BUF_SIZE available` (src/stream.rs
lines 114-123); the source leaves `pos` and `cap` unchanged in that case. -/
def poll_write_buffer_to (s : StreamWithBuffer) (shared : List Nat)
    (ev : WriteEvent) : WResult :=
  let cur := match s.buf with | some b => b | none => shared
  let slice := (cur.drop s.pos).take (s.cap - s.pos)
  match ev with
  | .ioError e => .fatal e
  | .accepted k =>
    let n := min k slice.length
    if n == 0 then .fatal "write zero bytes into writer"
    else .wrote { s with pos := s.pos + n } (slice.take n)
  | .pending =>
    match s.buf with
    | some _ => .pending s
    | none =>
      let available := s.cap - s.pos
      let pbuf := (shared.drop s.pos).take available ++
        List.replicate (max PRIVATE_BUF_SIZE available - available) 0
      .pending { s with buf := some pbuf }

/-- The event scripts for one relay direction: what the source socket's
reads, the peer socket's writes, and the peer socket's shutdown return. -/
structure SideEvents where
  reads : List ReadEvent
  writes : List WriteEvent
  shutdowns : List ShutdownEvent

/-- State threaded through a run of `poll_one_side`: the reading stream, the
shared scratch buffer, the remaining event scripts, the bytes written to
the peer so far, and the bytes read from the source so far. -/
structure SideRun where
  reader : StreamWithBuffer
  shared : List Nat
  events : SideEvents
  written : List Nat
  consumed : List Nat

/-- Outcome of a `poll_one_side` run. -/
inductive SideOutcome where
  | pending
  | fatal (e : String)
  | finished
  | outOfFuel
  deriving DecidableEq

/-- Embedding of `BiPipe::poll_one_side` (src/stream.rs lines 150-182): loop
reading into the buffer while it is empty and end-of-input has not been
seen, writing the buffer out while it is non-empty, and on end-of-input
shutting down the peer's write half (shutdown errors are logged, not
fatal), marking the direction done.  `fuel` bounds the number of loop
steps; each recursive step consumes one event, so any fuel larger than the
total number of scripted events is sufficient. -/
def pump : Nat → SideRun → SideOutcome × SideRun
  | 0, st => (.outOfFuel, st)
  | fuel + 1, st =>
    if st.reader.is_empty && !st.reader.read_eof then
      match st.events.reads with
      | [] => (.pending, st)
      | ev :: evs =>
        let st := { st with events := { st.events with reads := evs } }
        match poll_read_to_buffer st.reader st.shared ev with
        | .pending => (.pending, st)
        | .fatal e => (.fatal e, st)
        | .readOk r sh filled =>
          pump fuel { st with
            reader := r, shared := sh, consumed := st.consumed ++ filled }
    else if !st.reader.is_empty then
      match st.events.writes with
      | [] => (.pending, st)
      | ev :: evs =>
        let st := { st with events := { st.events with writes := evs } }
        match poll_write_buffer_to st.reader st.shared ev with
        | .pending r => (.pending, { st with reader := r })
        | .fatal e => (.fatal e, st)
        | .wrote r chunk =>
          pump fuel { st with reader := r, written := st.written ++ chunk }
    else if st.reader.read_eof then
      match st.events.shutdowns with
      | [] => (.pending, st)
      | ev :: evs =>
        let st := { st with events := { st.events with shutdowns := evs } }
        match ev with
        | .pending => (.pending, st)
        | _ => (.finished, { st with reader := { st.reader with done := true } })
    else
      (.pending, st)

/-- The relay completion decision of `BiPipe::poll` (src/stream.rs lines
201-223), with tokio's `Sleep` timer modelled by an absolute deadline in
seconds: both directions done completes immediately; neither done stays
pending; in the asymmetric state the first observation arms a 60-second
deadline, every later poll that finds the deadline not yet elapsed resets
it to 60 seconds from that poll (src/stream.rs line 214), and a poll that
finds it elapsed completes the relay. -/
structure HalfCloseState where
  leftDone : Bool
  rightDone : Bool
  deadline : Option Nat
  deriving DecidableEq

/-- `Poll` result of the completion decision. -/
inductive PollRes where
  | pending
  | ready
  deriving DecidableEq

/-- Embedding of the `match (self.left.done, self.right.done)` block of
`BiPipe::poll` (src/stream.rs lines 201-223); `now` is the poll time in
seconds and `Sleep::is_elapsed` is `deadline ≤ now`. -/
def bipipe_termination (st : HalfCloseState) (now : Nat) : PollRes × HalfCloseState :=
  match st.leftDone, st.rightDone with
  | true, true => (.ready, st)
  | false, false => (.pending, st)
  | _, _ =>
    match st.deadline with
    | none => (.pending, { st with deadline := some (now + HALF_CLOSE_TIMEOUT) })
    | some d =>
      if now < d then
        (.pending, { st with deadline := some (now + HALF_CLOSE_TIMEOUT) })
      else
        (.ready, st)

/-- Run a sequence of polls of the `BiPipe` completion decision: each list
entry is a poll at absolute time `t` observing done flags `(l, r)`; the
result is the outcome of the final poll. -/
def runTermination (st : HalfCloseState) :
    List (Nat × Bool × Bool) → PollRes × HalfCloseState
  | [] => (.pending, st)
  | [(t, l, r)] => bipipe_termination { st with leftDone := l, rightDone := r } t
  | (t, l, r) :: ev :: evs =>
    let st2 := (bipipe_termination { st with leftDone := l, rightDone := r } t).2
    runTermination st2 (ev :: evs)

/-!
## Concrete inputs used by the claim theorems
-/

/-- UTF-8 bytes of the hostname "example.com". -/
def exampleComBytes : List Nat := [101, 120, 97, 109, 112, 108, 101, 46, 99, 111, 109]

/-- A canonical well-formed TLS ClientHello record of exactly 72 bytes:
record header (type 22, version 3.1, fragment length 67), handshake header
(type 1, length 63), body with client version 3.3, 32-byte random, empty
session id, one cipher suite, one compression method, and a 20-byte
extension block holding a single server-name extension (list length 14,
name type 0, name length 11) for "example.com". -/
def clientHelloExampleCom : List Nat :=
  [22, 3, 1, 0, 67, 1, 0, 0, 63, 3, 3] ++ List.replicate 32 0 ++
  [0, 0, 2, 0, 0, 1, 0, 0, 20, 0, 0, 0, 16, 0, 14, 0, 0, 11] ++ exampleComBytes

/-- A well-formed 52-byte TLS ClientHello record with an empty extension
block (no SNI): record fragment length 47, handshake length 43, client
version 3.3, 32-byte random, empty session id, one cipher suite, one
compression method, extensions length 0. -/
def noExtHello : List Nat :=
  [22, 3, 1, 0, 47, 1, 0, 0, 43, 3, 3] ++ List.replicate 32 0 ++
  [0, 0, 2, 0, 0, 1, 0, 0, 0]

/-- Event script for one relay direction: the source delivers the bytes
`[1, 2, 3]`, then end-of-input; the peer socket would accept up to 100
bytes on each write attempt and shuts down cleanly. -/
def c1_events : SideEvents :=
  ⟨[.chunk [1, 2, 3], .chunk []], [.accepted 100, .accepted 100], [.ok]⟩

/-- Initial relay-direction state for the `c1_events` script: a fresh
stream and the zero-initialised 64 KB shared scratch buffer. -/
def c1_init : SideRun :=
  ⟨StreamWithBuffer.new, List.replicate SHARED_BUF_SIZE 0, c1_events, [], []⟩

/-- A client whose destination was resolved by redirect metadata to an IP
host on port 443, about to enter the TLS sniff. -/
def c2_client : Client := ⟨⟨.Ip4 [10, 0, 0, 1], 443⟩, 443, none⟩

/-- A client redirected to 93.184.216.34:443, about to enter the TLS
sniff. -/
def c4_client : Client := ⟨⟨.Ip4 [93, 184, 216, 34], 443⟩, 443, none⟩

/-- The five `ErrorKind::InvalidInput` messages the SOCKS5 server role can
produce (src/client.rs lines 125, 131, 137, 153, 163). -/
def socksViolationMessages : List String :=
  ["Neither a NATed or SOCKSv5 connection", "Socksv5, Only no auth supported",
   "Socksv5, CONNECT is required", "Socksv5, unknown adress type",
   "Socksv5, invalid domain name"]

/-!
## Helper lemmas
-/

/-- A successful `slice_by_at_range` stays within the input: the range end is
in bounds and the returned slice also fits after it. -/
theorem slice_ok_facts {d : List Nat} {s e : Nat} {r : List Nat}
    (h : slice_by_at_range d s e = .ok r) : e ≤ d.length ∧ e + r.length ≤ d.length := by
  simp only [slice_by_at_range] at h
  split at h
  · rename_i hc
    split at h
    · rename_i hlen
      injection h with h2
      subst h2
      refine ⟨hc.2, ?_⟩
      simp only [List.length_take, List.length_drop]
      omega
    · exact absurd h (by simp)
  · exact absurd h (by simp)

/-- `slice_by_at_range` only fails with named messages, never with the
modelled panic. -/
theorem slice_err_msg {d : List Nat} {s e : Nat} {p : PErr}
    (h : slice_by_at_range d s e = .error p) : ∃ m, p = .msg m := by
  simp only [slice_by_at_range] at h
  split at h
  · split at h
    · exact absurd h (by simp)
    · injection h with h2
      exact ⟨_, h2.symm⟩
  · injection h with h2
    exact ⟨_, h2.symm⟩

/-- A successful `truncate_before` stays within the input. -/
theorem truncate_ok_facts {d : List Nat} {s e : Nat} {r : List Nat}
    (h : truncate_before d s e = .ok r) : e ≤ d.length ∧ r.length + e ≤ d.length := by
  simp only [truncate_before] at h
  split at h
  · exact absurd h (by simp)
  · rename_i r2 heq
    split at h
    · injection h with h2
      subst h2
      have hf := slice_ok_facts heq
      refine ⟨hf.1, ?_⟩
      simp only [List.length_drop]
      omega
    · exact absurd h (by simp)

/-- The raw indexing `&data[len_range.end + len..]` inside `truncate_before`
is always in bounds: the function never reaches the modelled panic. -/
theorem truncate_no_panic (d : List Nat) (s e : Nat) :
    truncate_before d s e ≠ .error .panic := by
  simp only [truncate_before]
  split
  · rename_i p heq
    obtain ⟨m, rfl⟩ := slice_err_msg heq
    simp
  · rename_i r heq
    split
    · simp
    · rename_i hcon
      exact absurd (slice_ok_facts heq).2 hcon

/-- The raw header indexing `data[0]`, `data[1]`, `data[2]` in
`parse_tls_record` is always in bounds, because the preceding
`slice_by_at_range data 3 5` guarantees at least five bytes. -/
theorem parse_tls_record_no_panic (d : List Nat) : parse_tls_record d ≠ .error .panic := by
  simp only [parse_tls_record]
  split
  · rename_i p heq
    obtain ⟨m, rfl⟩ := slice_err_msg heq
    simp
  · rename_i frag heq
    have h5 := (slice_ok_facts heq).1
    split
    · simp
    · rename_i hne
      rcases d with _ | ⟨a, _ | ⟨b, _ | ⟨c, rest⟩⟩⟩ <;> simp_all
      exact hne a b c rest rfl rfl rfl rfl

/-- The extension loop never reaches a modelled panic for sufficient fuel:
the raw indexing `ext_data[3]` is guarded by the preceding
`truncate_before ext_data 2 4`, whose success forces the extension body to
hold at least four bytes, and the loop argument shrinks by at least eight
bytes per iteration, so `exts.length` iterations are never exhausted. -/
theorem extLoop_no_panic :
    ∀ fuel exts acc, exts.length < fuel → extLoop fuel exts acc ≠ .error .panic := by
  intro fuel
  induction fuel with
  | zero => intro exts acc h; omega
  | succ n ih =>
    intro exts acc h
    simp only [extLoop]
    split
    · rename_i h4
      split
      · rename_i p heq
        obtain ⟨m, rfl⟩ := slice_err_msg heq
        simp
      · rename_i ext_data heq
        split
        · rename_i p heqt
          intro hc
          injection hc with hc2
          subst hc2
          exact truncate_no_panic _ _ _ heqt
        · rename_i exts2 heqt
          have hlen1 := (slice_ok_facts heq).2
          have hlen2 := (truncate_ok_facts heqt).2
          have hrec : exts2.length < n := by omega
          split
          · split
            · rename_i hget
              have h4d := (truncate_ok_facts heqt).1
              rw [List.get?_eq_none] at hget
              intro _
              omega
            · rename_i b hget
              split
              · split
                · rename_i p heq2
                  obtain ⟨m, rfl⟩ := slice_err_msg heq2
                  simp
                · rename_i rawName heq2
                  split
                  · exact ih exts2 _ hrec
                  · simp
              · exact ih exts2 _ hrec
          · exact ih exts2 _ hrec
    · simp

/-- `parse_client_hello` never reaches a modelled panic on any input. -/
theorem parse_client_hello_no_panic (data : List Nat) :
    parse_client_hello data ≠ .error .panic := by
  simp only [parse_client_hello]
  split
  · rename_i p heq
    intro hc
    injection hc with hc2
    subst hc2
    exact parse_tls_record_no_panic data heq
  · rename_i r heq
    split
    · simp
    · split
      · simp
      · split
        · simp
        · split
          · rename_i p heq1
            obtain ⟨m, rfl⟩ := slice_err_msg heq1
            simp
          · rename_i body heq1
            split
            · simp
            · split
              · rename_i p heq2
                intro hc
                injection hc with hc2
                subst hc2
                exact truncate_no_panic _ _ _ heq2
              · rename_i rem1 heq2
                split
                · rename_i p heq3
                  intro hc
                  injection hc with hc2
                  subst hc2
                  exact truncate_no_panic _ _ _ heq3
                · rename_i rem2 heq3
                  split
                  · rename_i p heq4
                    intro hc
                    injection hc with hc2
                    subst hc2
                    exact truncate_no_panic _ _ _ heq4
                  · rename_i rem3 heq4
                    split
                    · rename_i p heq5
                      obtain ⟨m, rfl⟩ := slice_err_msg heq5
                      simp
                    · rename_i exts heq5
                      split
                      · rename_i p heq6
                        intro hc
                        injection hc with hc2
                        subst hc2
                        exact extLoop_no_panic (exts.length + 1) exts none
                          (Nat.lt_succ_self _) heq6
                      · simp

/-- Truncating a record whose declared fragment length exactly fills the
input makes the very first length-checked slice fail with a named error. -/
theorem take_slice_fails {data : List Nat} {i : Nat}
    (hlen : data.length = 5 + beLen ((data.drop 3).take 2))
    (hi : i < data.length) :
    ∃ m, slice_by_at_range (data.take i) 3 5 = .error (.msg m) := by
  by_cases h5 : 5 ≤ i
  · have hlt : (data.take i).length = i := by
      rw [List.length_take]; omega
    have hsame : ((data.take i).drop 3).take 2 = (data.drop 3).take 2 := by
      rw [List.drop_take, List.take_take]
      congr 1
      omega
    refine ⟨"error when get index", ?_⟩
    simp only [slice_by_at_range, hsame, hlt]
    rw [if_pos ⟨by omega, by omega⟩, if_neg (by omega)]
  · refine ⟨"no enough data length to decode", ?_⟩
    simp only [slice_by_at_range]
    rw [if_neg]
    intro hcon
    have h2 := hcon.2
    rw [List.length_take] at h2
    omega

/-- Reading an exact prefix of the input succeeds and leaves the suffix. -/
theorem readExact_exact (l r : List Nat) : readExact l.length (l ++ r) = .ok (l, r) := by
  induction l with
  | nil => rfl
  | cons b bs ih => simp [readExact, ih]

/-- `readExact` fails only with `UnexpectedEof`. -/
theorem readExact_error : ∀ n l e, readExact n l = .error e → e = IoErr.unexpectedEof := by
  intro n
  induction n with
  | zero => intro l e h; simp [readExact] at h
  | succ k ih =>
    intro l e h
    cases l with
    | nil =>
      simp only [readExact] at h
      injection h with h2
      exact h2.symm
    | cons b bs =>
      simp only [readExact] at h
      split at h
      · rename_i e2 heq
        injection h with h2
        subst h2
        exact ih bs _ heq
      · exact absurd h (by simp)

/-- `readU16` fails only with `UnexpectedEof`. -/
theorem readU16_error {l : List Nat} {e : IoErr} (h : readU16 l = .error e) :
    e = .unexpectedEof := by
  rcases l with _ | ⟨a, _ | ⟨b, r⟩⟩ <;> simp only [readU16] at h
  · injection h with h2; exact h2.symm
  · injection h with h2; exact h2.symm
  · exact absurd h (by simp)

/-- After a valid version byte and a method list offering no-auth, the
handshake result is the CONNECT decoding result together with the
method-selection reply and the fixed success frame. -/
theorem socks5_method_stage_ok {ms tail : List Nat} {dest : Destination} {r4 : List Nat}
    (hms : ms.contains 0 = true) (hdec : decodeConnectRequest tail = .ok (dest, r4)) :
    from_socket_socks5 (5 :: ms.length :: (ms ++ tail)) =
      .ok (dest, [5, 0] ++ successFrame, r4) := by
  have e1 := readExact_exact ms tail
  simp +decide only [from_socket_socks5, e1, hms, hdec, ite_true, ite_false]

/-- A CONNECT-decoding error propagates out of the handshake unchanged. -/
theorem socks5_method_stage_err {ms tail : List Nat} {e : IoErr}
    (hms : ms.contains 0 = true) (hdec : decodeConnectRequest tail = .error e) :
    from_socket_socks5 (5 :: ms.length :: (ms ++ tail)) = .error e := by
  have e1 := readExact_exact ms tail
  simp +decide only [from_socket_socks5, e1, hms, hdec, ite_true, ite_false]

/-- A version byte other than 5 is rejected immediately. -/
theorem socks5_wrong_version {v : Nat} {rest : List Nat} (h : v ≠ 5) :
    from_socket_socks5 (v :: rest) =
      .error (.invalidInput "Neither a NATed or SOCKSv5 connection") := by
  simp [from_socket_socks5, h]

/-- A method list not offering no-auth is rejected. -/
theorem socks5_no_auth {ms rest : List Nat} (hms : ms.contains 0 = false) :
    from_socket_socks5 (5 :: ms.length :: (ms ++ rest)) =
      .error (.invalidInput "Socksv5, Only no auth supported") := by
  have e1 := readExact_exact ms rest
  simp +decide only [from_socket_socks5, e1, hms, ite_true, ite_false]

/-- Decoding a CONNECT request with address type IPv4 (0x01). -/
theorem decode_ipv4 (d4 : List Nat) (b1 b2 : Nat) (rest : List Nat) (h : d4.length = 4) :
    decodeConnectRequest ([5, 1, 0, 1] ++ (d4 ++ ([b1, b2] ++ rest))) =
      .ok (⟨.Ip4 d4, (b1 <<< 8) ||| b2⟩, rest) := by
  have e2 : readExact 4 (d4 ++ (b1 :: b2 :: rest)) = .ok (d4, b1 :: b2 :: rest) := by
    rw [← h]; exact readExact_exact d4 _
  simp +decide only [decodeConnectRequest, readExact]
  simp [e2, readU16]

/-- Decoding a CONNECT request with address type domain (0x03). -/
theorem decode_domain (name : List Nat) (b1 b2 : Nat) (rest : List Nat)
    (h : utf8Valid name = true) :
    decodeConnectRequest ([5, 1, 0, 3, name.length] ++ (name ++ ([b1, b2] ++ rest))) =
      .ok (⟨.Domain name, (b1 <<< 8) ||| b2⟩, rest) := by
  have e2 : readExact name.length (name ++ (b1 :: b2 :: rest)) = .ok (name, b1 :: b2 :: rest) :=
    readExact_exact name _
  simp +decide only [decodeConnectRequest, readExact]
  simp [e2, h, readU16]

/-- Decoding a CONNECT request with address type IPv6 (0x04). -/
theorem decode_ipv6 (d16 : List Nat) (b1 b2 : Nat) (rest : List Nat) (h : d16.length = 16) :
    decodeConnectRequest ([5, 1, 0, 4] ++ (d16 ++ ([b1, b2] ++ rest))) =
      .ok (⟨.Ip6 d16, (b1 <<< 8) ||| b2⟩, rest) := by
  have e2 : readExact 16 (d16 ++ (b1 :: b2 :: rest)) = .ok (d16, b1 :: b2 :: rest) := by
    rw [← h]; exact readExact_exact d16 _
  simp +decide only [decodeConnectRequest, readExact]
  simp [e2, readU16]

/-- A request whose first two bytes are not `[5, 1]` is rejected. -/
theorem decode_not_connect {c0 c1 x a : Nat} {rest : List Nat}
    (h : ¬([c0, c1] = ([5, 1] : List Nat))) :
    decodeConnectRequest ([c0, c1, x, a] ++ rest) =
      .error (.invalidInput "Socksv5, CONNECT is required") := by
  simp +decide only [decodeConnectRequest, readExact, List.take]
  simp [h]

/-- An address type byte other than 1, 3 or 4 is rejected. -/
theorem decode_unknown_atyp {x a : Nat} {rest : List Nat}
    (h1 : a ≠ 1) (h3 : a ≠ 3) (h4 : a ≠ 4) :
    decodeConnectRequest ([5, 1, x, a] ++ rest) =
      .error (.invalidInput "Socksv5, unknown adress type") := by
  rcases a with _ | _ | _ | _ | _ | a
  · simp +decide [decodeConnectRequest, readExact]
  · exact absurd rfl h1
  · simp +decide [decodeConnectRequest, readExact]
  · exact absurd rfl h3
  · exact absurd rfl h4
  · simp +decide [decodeConnectRequest, readExact]

/-- Domain bytes that are not valid UTF-8 are rejected. -/
theorem decode_invalid_domain {name : List Nat} {rest : List Nat}
    (h : utf8Valid name = false) :
    decodeConnectRequest ([5, 1, 0, 3, name.length] ++ (name ++ rest)) =
      .error (.invalidInput "Socksv5, invalid domain name") := by
  have e2 := readExact_exact name rest
  simp +decide only [decodeConnectRequest, readExact]
  simp [e2, h]

/-- Every `InvalidInput` failure of the CONNECT decoder carries one of its
three protocol-violation messages. -/
theorem decode_error_messages {input : List Nat} {m : String}
    (h : decodeConnectRequest input = .error (.invalidInput m)) :
    m = "Socksv5, CONNECT is required" ∨ m = "Socksv5, unknown adress type" ∨
      m = "Socksv5, invalid domain name" := by
  simp only [decodeConnectRequest] at h
  split at h
  · rename_i e heq
    have he := readExact_error _ _ _ heq
    subst he
    exact absurd h (by simp)
  · rename_i req r1 heq
    split at h
    · injection h with h2
      injection h2 with h3
      exact .inl h3.symm
    · split at h
      · split at h
        · rename_i e heq2
          have he := readExact_error _ _ _ heq2
          subst he
          exact absurd h (by simp)
        · split at h
          · rename_i e heq3
            have he := readU16_error heq3
            subst he
            exact absurd h (by simp)
          · exact absurd h (by simp)
      · split at h
        · exact absurd h (by simp)
        · split at h
          · rename_i e heq2
            have he := readExact_error _ _ _ heq2
            subst he
            exact absurd h (by simp)
          · split at h
            · split at h
              · rename_i e heq3
                have he := readU16_error heq3
                subst he
                exact absurd h (by simp)
              · exact absurd h (by simp)
            · injection h with h2
              injection h2 with h3
              exact .inr (.inr h3.symm)
      · split at h
        · rename_i e heq2
          have he := readExact_error _ _ _ heq2
          subst he
          exact absurd h (by simp)
        · split at h
          · rename_i e heq3
            have he := readU16_error heq3
            subst he
            exact absurd h (by simp)
          · exact absurd h (by simp)
      · injection h with h2
        injection h2 with h3
        exact .inr (.inl h3.symm)

/-- Every `InvalidInput` failure of the SOCKS5 server handshake carries one
of the five protocol-violation messages. -/
theorem socks5_error_messages {input : List Nat} {m : String}
    (h : from_socket_socks5 input = .error (.invalidInput m)) :
    m ∈ socksViolationMessages := by
  simp only [from_socket_socks5] at h
  split at h
  · exact absurd h (by simp)
  · rename_i ver r1
    split at h
    · injection h with h2
      injection h2 with h3
      subst h3
      simp [socksViolationMessages]
    · split at h
      · exact absurd h (by simp)
      · rename_i n r2
        split at h
        · rename_i e heq
          have he := readExact_error _ _ _ heq
          subst he
          exact absurd h (by simp)
        · rename_i methods r3 heq
          split at h
          · injection h with h2
            injection h2 with h3
            subst h3
            simp [socksViolationMessages]
          · split at h
            · rename_i e heq2
              injection h with h2
              subst h2
              rcases decode_error_messages heq2 with h3 | h3 | h3 <;>
                (subst h3; simp [socksViolationMessages])
            · exact absurd h (by simp)

/-!
## Claim theorems
-/

/-- C1: the claim states that for every relay run the bytes written to the
peer equal the bytes read from the source, in order.  This fails on the
code: `poll_read_to_buffer` sets `cap = 0` (not the byte count) after a
successful read (src/stream.rs line 84), so the buffer is considered empty
and the bytes just read are never offered to the writer.  On a run whose
source delivers `[1, 2, 3]` and then end-of-input, with the peer willing to
accept writes, the pump finishes having read `[1, 2, 3]` and written
nothing. -/
theorem C1_relay_drops_read_bytes :
    (pump 3 c1_init).1 = .finished ∧
    (pump 3 c1_init).2.consumed = [1, 2, 3] ∧
    (pump 3 c1_init).2.written = [] ∧
    ([] : List Nat) ≠ [1, 2, 3] :=
  ⟨rfl, rfl, rfl, by decide⟩

/-- C2: the claim states that bytes captured by the TLS sniff peek are
retained as pending data and delivered upstream exactly once.  This fails
on the code: `retrieve_dest` shadows the destructured `pending_data` with a
fresh `None` (src/client.rs line 195) and never stores the peeked buffer
(the TLS handling is a `TODO`), so the returned client carries no pending
data and the upstream handshake (`do_handshake`, which does flush supplied
early data after a successful handshake) is given nothing to deliver. -/
theorem C2_peeked_bytes_discarded :
    retrieve_dest c2_client (.readOk [22, 3, 1]) = .ok c2_client ∧
    c2_client.pending_data = none ∧
    do_handshake c2_client.dest c2_client.pending_data [5, 0] successFrame =
      .ok ([5, 1, 0] ++ build_request c2_client.dest) :=
  ⟨rfl, rfl, rfl⟩

/-- C3: the claim states that an elapsed 500 ms sniff-peek deadline is a
non-error outcome with `retrieve_dest` returning successfully.  This fails
on the code: the `?` operator on `timeout(wait, left.read(..)).await`
(src/client.rs line 197) converts the elapsed deadline into an `io::Error`
of kind `TimedOut` that propagates out of `retrieve_dest`, so the caller
(`handle_client`, src/main.rs line 74) tears the connection down. -/
theorem C3_peek_timeout_is_an_error :
    (∀ c, retrieve_dest c .elapsed = .error .timedOut) ∧
    (∀ c c2, retrieve_dest c .elapsed ≠ .ok c2) :=
  ⟨fun _ => rfl, fun _ _ h => Except.noConfusion h⟩

/-- C4: the claim states that a peeked ClientHello with SNI "example.com"
makes the negotiator replace the redirected IP destination with the domain
name.  This fails on the code: `retrieve_dest` reads the peek bytes and
then does nothing with them (the TLS handling is an unfinished `TODO`,
src/client.rs line 201), so the destination stays the raw redirected IP. -/
theorem C4_sni_does_not_replace_destination :
    retrieve_dest c4_client (.readOk clientHelloExampleCom) = .ok c4_client ∧
    c4_client.dest = ⟨.Ip4 [93, 184, 216, 34], 443⟩ ∧
    Address.Ip4 [93, 184, 216, 34] ≠ .Domain exampleComBytes :=
  ⟨rfl, rfl, by decide⟩

/-- C5: the claim states `decode (encode d) = d` for all destinations,
including IPv4.  This fails on the code: `build_request` never pushes the
ATYP byte `0x01` in the IPv4 arm (src/protocols/socks5.rs lines 77-80), so
the encoded request for 9.9.9.9:80 is `[5,1,0,9,9,9,9,0,80]` and the
server-role decoder reads the first address octet `9` as the address type
and rejects the request. -/
theorem C5_ipv4_roundtrip_fails :
    build_request ⟨.Ip4 [9, 9, 9, 9], 80⟩ = [5, 1, 0, 9, 9, 9, 9, 0, 80] ∧
    decodeConnectRequest (build_request ⟨.Ip4 [9, 9, 9, 9], 80⟩) =
      .error (.invalidInput "Socksv5, unknown adress type") ∧
    ∀ rest, decodeConnectRequest (build_request ⟨.Ip4 [9, 9, 9, 9], 80⟩) ≠
      .ok (⟨.Ip4 [9, 9, 9, 9], 80⟩, rest) := by
  refine ⟨rfl, rfl, fun rest h => ?_⟩
  rw [show decodeConnectRequest (build_request ⟨.Ip4 [9, 9, 9, 9], 80⟩) =
    .error (.invalidInput "Socksv5, unknown adress type") from rfl] at h
  exact Except.noConfusion h

/-- C7: the claim states that every well-formed ClientHello carrying an SNI
extension for "example.com" parses successfully to that name.  This fails
on the code: the extension loop advances its cursor with
`truncate_before(&ext_data, 2..4)` - relative to the extension body instead
of the extension list (src/tls/mod.rs line 91) - so after decoding the SNI
extension the loop continues inside the hostname bytes and errors out on
the canonical single-extension ClientHello. -/
theorem C7_sni_hello_parse_errors : 
    parse_client_hello clientHelloExampleCom = .error (.msg "error when get index") ∧
    ∀ r, parse_client_hello clientHelloExampleCom ≠ .ok r := by
  refine ⟨rfl, fun r h => ?_⟩
  rw [show parse_client_hello clientHelloExampleCom =
    .error (.msg "error when get index") from rfl] at h
  exact Except.noConfusion h

/-- C8 counterexample: the claim states the relay force-completes once 60
seconds have elapsed from the first asymmetric-finish observation, the
deadline not being reset by later polls.  On the code, a poll in the
asymmetric state that finds the deadline unexpired resets it to 60 seconds
from that poll (src/stream.rs line 214): with the first asymmetric
observation at time 0 and an intervening poll at time 50, the poll at time
70 (past 0 + 60) is still `Pending` with the deadline pushed to 130. -/
theorem C8_deadline_reset_on_every_poll :
    (runTermination ⟨false, false, none⟩
      [(0, true, false), (50, true, false), (70, true, false)]).1 = .pending ∧
    (runTermination ⟨false, false, none⟩
      [(0, true, false), (50, true, false), (70, true, false)]).2.deadline = some 130 ∧
    0 + HALF_CLOSE_TIMEOUT ≤ 70 ∧
    PollRes.pending ≠ .ready :=
  ⟨rfl, rfl, by decide, by decide⟩

/-- C8 (amended): if both directions are finished the relay completes
immediately; if neither is finished it stays pending; in the asymmetric
state the first poll arms a 60-second deadline, every later poll that finds
the deadline unexpired stays pending and resets it to 60 seconds from that
poll (so the relay force-completes only after a 60-second interval with no
intervening poll, measured from the last poll in the asymmetric state, not
from the first asymmetric observation), and a poll that finds the deadline
expired completes the relay successfully. -/
theorem C8_half_close_behavior :
    (∀ st now, st.leftDone = true → st.rightDone = true →
      bipipe_termination st now = (.ready, st)) ∧
    (∀ st now, st.leftDone = false → st.rightDone = false →
      bipipe_termination st now = (.pending, st)) ∧
    (∀ st now, st.leftDone ≠ st.rightDone → st.deadline = none →
      bipipe_termination st now =
        (.pending, { st with deadline := some (now + HALF_CLOSE_TIMEOUT) })) ∧
    (∀ st now d, st.leftDone ≠ st.rightDone → st.deadline = some d → now < d →
      bipipe_termination st now =
        (.pending, { st with deadline := some (now + HALF_CLOSE_TIMEOUT) })) ∧
    (∀ st now d, st.leftDone ≠ st.rightDone → st.deadline = some d → d ≤ now →
      bipipe_termination st now = (.ready, st)) := by
  refine ⟨?_, ?_, ?_, ?_, ?_⟩
  · rintro ⟨l, r, dl⟩ now h1 h2
    subst h1; subst h2; rfl
  · rintro ⟨l, r, dl⟩ now h1 h2
    subst h1; subst h2; rfl
  · rintro ⟨l, r, dl⟩ now h1 h2
    cases l <;> cases r <;> simp_all [bipipe_termination]
  · rintro ⟨l, r, dl⟩ now d h1 h2 h3
    cases l <;> cases r <;> simp_all [bipipe_termination]
  · rintro ⟨l, r, dl⟩ now d h1 h2 h3
    cases l <;> cases r <;> simp_all [bipipe_termination, Nat.not_lt.mpr h3]

/-- Witness for `C8_half_close_behavior`: with one direction finished and
the deadline armed at 60, a poll at time 50 stays pending and resets the
deadline to 110, while a poll at time 70 completes the relay. -/
theorem C8_half_close_behavior_witness :
    bipipe_termination ⟨true, false, some 60⟩ 50 =
      (.pending, ⟨true, false, some 110⟩) ∧
    bipipe_termination ⟨true, false, some 60⟩ 70 =
      (.ready, ⟨true, false, some 60⟩) :=
  ⟨C8_half_close_behavior.2.2.2.1 ⟨true, false, some 60⟩ 50 60 (by decide) rfl (by decide),
   C8_half_close_behavior.2.2.2.2 ⟨true, false, some 60⟩ 70 60 (by decide) rfl (by decide)⟩

/-- C9 counterexample: the claim states the local SOCKS5 handshake fails
exactly on {wrong version, no-auth not offered, non-CONNECT command,
unsupported address type}.  On the code there is a fifth protocol failure:
a CONNECT request whose domain bytes are not valid UTF-8 is rejected by
`String::from_utf8` (src/client.rs lines 152-154).  The input below offers
method 0x00, requests CONNECT with the supported address type 3, yet the
handshake fails. -/
theorem C9_invalid_utf8_domain_rejected :
    from_socket_socks5 [5, 1, 0, 5, 1, 0, 3, 1, 255, 0, 80] =
      .error (.invalidInput "Socksv5, invalid domain name") ∧
    "Socksv5, invalid domain name" ∉
      (["Neither a NATed or SOCKSv5 connection", "Socksv5, Only no auth supported",
        "Socksv5, CONNECT is required", "Socksv5, unknown adress type"] : List String) :=
  ⟨rfl, by decide⟩

/-- C10: a sniff-peek read that completes within the deadline but fails
with a socket error is silently ignored by the `if let Ok(len)` pattern
(src/client.rs line 197): `retrieve_dest` returns success and the client
proceeds with its previously resolved destination unchanged. -/
theorem C10_peek_read_error_ignored :
    ∀ c e, retrieve_dest c (.readErr e) = .ok { c with pending_data := none } :=
  fun _ _ => rfl

/-- C6: the TLS ClientHello parser is total - on every input it returns a
result or a named parse error and never reaches an out-of-bounds access
(every raw indexing in the source is dominated by a bounds-checked length
read); moreover, truncating a record whose declared fragment length exactly
fills the input (as in any well-formed ClientHello record) at any byte
boundary yields a named parse error. -/
theorem C6_parser_total :
    (∀ data, (∃ r, parse_client_hello data = .ok r) ∨
      (∃ m, parse_client_hello data = .error (.msg m))) ∧
    (∀ data r i, parse_client_hello data = .ok r →
      data.length = 5 + beLen ((data.drop 3).take 2) → i < data.length →
      ∃ m, parse_client_hello (data.take i) = .error (.msg m)) := by
  constructor
  · intro data
    cases h : parse_client_hello data with
    | ok r => exact .inl ⟨r, rfl⟩
    | error p =>
      cases p with
      | msg m => exact .inr ⟨m, rfl⟩
      | panic => exact absurd h (parse_client_hello_no_panic data)
  · intro data r i hok hlen hi
    obtain ⟨m, hm⟩ := take_slice_fails hlen hi
    refine ⟨m, ?_⟩
    simp only [parse_client_hello, parse_tls_record, hm]

/-- Witness for `C6_parser_total`: the 52-byte extension-free ClientHello
parses successfully, its declared fragment length fills the record exactly,
and truncating it to its first 10 bytes yields a named parse error. -/
theorem C6_parser_total_witness :
    ∃ m, parse_client_hello (noExtHello.take 10) = .error (.msg m) :=
  C6_parser_total.2 noExtHello ⟨none⟩ 10 rfl (by decide) (by decide)

/-- C9 (amended): the local SOCKS5 server handshake succeeds on every
well-formed request - replying `[5, 0]` followed by the fixed success frame
and resolving exactly the decoded address and big-endian port - and fails
exactly on the protocol violations wrong version, no-auth not offered,
command other than CONNECT, unsupported address type, or domain bytes that
are not valid UTF-8 (every `InvalidInput` failure carries one of those five
messages); I/O-level read failures (`UnexpectedEof`) are separate. -/
theorem C9_socks5_server_handshake :
    (∀ ms d4 b1 b2 rest, ms.contains 0 = true → d4.length = 4 →
      from_socket_socks5
          ([5, ms.length] ++ (ms ++ ([5, 1, 0, 1] ++ (d4 ++ ([b1, b2] ++ rest))))) =
        .ok (⟨.Ip4 d4, (b1 <<< 8) ||| b2⟩, [5, 0] ++ successFrame, rest)) ∧
    (∀ ms name b1 b2 rest, ms.contains 0 = true → utf8Valid name = true →
      from_socket_socks5
          ([5, ms.length] ++ (ms ++ ([5, 1, 0, 3, name.length] ++ (name ++ ([b1, b2] ++ rest))))) =
        .ok (⟨.Domain name, (b1 <<< 8) ||| b2⟩, [5, 0] ++ successFrame, rest)) ∧
    (∀ ms d16 b1 b2 rest, ms.contains 0 = true → d16.length = 16 →
      from_socket_socks5
          ([5, ms.length] ++ (ms ++ ([5, 1, 0, 4] ++ (d16 ++ ([b1, b2] ++ rest))))) =
        .ok (⟨.Ip6 d16, (b1 <<< 8) ||| b2⟩, [5, 0] ++ successFrame, rest)) ∧
    (∀ v rest, v ≠ 5 →
      from_socket_socks5 (v :: rest) =
        .error (.invalidInput "Neither a NATed or SOCKSv5 connection")) ∧
    (∀ ms rest, ms.contains 0 = false →
      from_socket_socks5 ([5, ms.length] ++ (ms ++ rest)) =
        .error (.invalidInput "Socksv5, Only no auth supported")) ∧
    (∀ ms c0 c1 x a rest, ms.contains 0 = true → ¬([c0, c1] = ([5, 1] : List Nat)) →
      from_socket_socks5 ([5, ms.length] ++ (ms ++ ([c0, c1, x, a] ++ rest))) =
        .error (.invalidInput "Socksv5, CONNECT is required")) ∧
    (∀ ms x a rest, ms.contains 0 = true → a ≠ 1 → a ≠ 3 → a ≠ 4 →
      from_socket_socks5 ([5, ms.length] ++ (ms ++ ([5, 1, x, a] ++ rest))) =
        .error (.invalidInput "Socksv5, unknown adress type")) ∧
    (∀ ms name rest, ms.contains 0 = true → utf8Valid name = false →
      from_socket_socks5
          ([5, ms.length] ++ (ms ++ ([5, 1, 0, 3, name.length] ++ (name ++ rest)))) =
        .error (.invalidInput "Socksv5, invalid domain name")) ∧
    (∀ input m, from_socket_socks5 input = .error (.invalidInput m) →
      m ∈ socksViolationMessages) := by
  refine ⟨?_, ?_, ?_, ?_, ?_, ?_, ?_, ?_, ?_⟩
  · intro ms d4 b1 b2 rest hms hd4
    exact socks5_method_stage_ok hms (decode_ipv4 d4 b1 b2 rest hd4)
  · intro ms name b1 b2 rest hms hname
    exact socks5_method_stage_ok hms (decode_domain name b1 b2 rest hname)
  · intro ms d16 b1 b2 rest hms hd16
    exact socks5_method_stage_ok hms (decode_ipv6 d16 b1 b2 rest hd16)
  · intro v rest hv
    exact socks5_wrong_version hv
  · intro ms rest hms
    exact socks5_no_auth hms
  · intro ms c0 c1 x a rest hms hc
    exact socks5_method_stage_err hms (decode_not_connect hc)
  · intro ms x a rest hms h1 h3 h4
    exact socks5_method_stage_err hms (decode_unknown_atyp h1 h3 h4)
  · intro ms name rest hms hname
    exact socks5_method_stage_err hms (decode_invalid_domain hname)
  · intro input m h
    exact socks5_error_messages h

/-- Witness for `C9_socks5_server_handshake`: the end-to-end scenario of the
specification - a client offering method 0x00 and requesting CONNECT to
domain "test.local" port 8080 resolves exactly that destination, with the
method-selection reply and the fixed success frame written back. -/
theorem C9_socks5_server_handshake_witness :
    from_socket_socks5
        [5, 1, 0, 5, 1, 0, 3, 10, 116, 101, 115, 116, 46, 108, 111, 99, 97, 108, 31, 144] =
      .ok (⟨.Domain [116, 101, 115, 116, 46, 108, 111, 99, 97, 108], 8080⟩,
        [5, 0] ++ successFrame, []) :=
  C9_socks5_server_handshake.2.1 [0] [116, 101, 115, 116, 46, 108, 111, 99, 97, 108]
    31 144 [] (by decide) (by decide)
